import Mathlib

/- Verification of the authentication and session-state module of the
FinancelyAI household budgeting application: the credential store and session
gate (signUp, login, logout, doesAccountExist, checkAuth, getAuthenticatedUser)
and the application startup check (checkUserStatus in the app shell).

The browser localStorage is modelled as a pure store restricted to the two keys
the module touches: the user-record key and the session key.  The platform
primitives are passed in as parameters: the SHA-256 digest
(crypto.subtle.digest) as a function from the input string to its list of
digest bytes, and the random salt (crypto.randomUUID) as an explicit argument.
Each operation returns its result together with the updated store. -/

namespace FinancelyAI

/-- A stored credential record: the JSON object storing name, salt and hash kept
under the user key. -/
structure UserRecord where
  name : String
  salt : String
  hash : String
deriving DecidableEq

/-- The local key-value store restricted to the two keys the module uses: the
user-record key and the session key, each absent or holding a value.  The
session key holds an arbitrary string, since localStorage can hold any value
there. -/
structure Store where
  user : Option UserRecord
  session : Option String
deriving DecidableEq

/-- The result shape of getAuthenticatedUser: an object with a name, or null
(modelled as none). -/
structure AuthUser where
  name : String
deriving DecidableEq

/-- JS padStart(2, the zero character): left-pad a string with zeros to width
at least 2. -/
def padStart2 (s : String) : String :=
  if s.length < 2 then String.mk (List.replicate (2 - s.length) '0') ++ s else s

/-- JS toString(16) followed by padStart(2, the zero character): the lowercase
base-16 rendering of a byte, left-padded with zeros to width 2. -/
def byteToHexStr (b : Nat) : String :=
  padStart2 (String.mk (Nat.toDigits 16 b))

/-- hashPassword from authService: the digest of password ++ salt, each byte
rendered as two lowercase hex digits and joined into one string. -/
def hashPassword (digest : String → List Nat) (password salt : String) : String :=
  String.join ((digest (password ++ salt)).map byteToHexStr)

/-- signUp from authService: fails if a user record is already stored;
otherwise stores the record with the given name, the fresh salt and the salted
hash of the password, sets the session key to the literal string true, and
returns true. -/
def signUp (digest : String → List Nat) (salt : String) (name pass : String)
    (s : Store) : Bool × Store :=
  if s.user.isSome then
    (false, s)
  else
    (true, ⟨some ⟨name, salt, hashPassword digest pass salt⟩, some "true"⟩)

/-- login from authService: returns false if no user record is stored;
otherwise recomputes the salted hash of the supplied password and compares it
with the stored hash, setting the session key to the literal string true and
returning true on match, and returning false with the store unchanged
otherwise. -/
def login (digest : String → List Nat) (pass : String) (s : Store) : Bool × Store :=
  match s.user with
  | none => (false, s)
  | some u =>
    if hashPassword digest pass u.salt = u.hash then
      (true, ⟨s.user, some "true"⟩)
    else
      (false, s)

/-- logout from authService: removes the session key and nothing else. -/
def logout (s : Store) : Store :=
  ⟨s.user, none⟩

/-- doesAccountExist from authService: true iff a user record is stored. -/
def doesAccountExist (s : Store) : Bool :=
  s.user.isSome

/-- checkAuth from authService: true iff the session key holds exactly the
literal string true. -/
def checkAuth (s : Store) : Bool :=
  s.session == some "true"

/-- getAuthenticatedUser from authService: null when no user record is stored,
otherwise an object holding the stored name. -/
def getAuthenticatedUser (s : Store) : Option AuthUser :=
  match s.user with
  | none => none
  | some u => some ⟨u.name⟩

/-- checkUserStatus from the app shell (App.tsx): computes hasAccount from
doesAccountExist, and only consults checkAuth when an account exists;
isAuthenticated starts false and is only set when both hold.  Returns the pair
(hasAccount, isAuthenticated). -/
def checkUserStatus (s : Store) : Bool × Bool :=
  let accountExists := doesAccountExist s
  let isAuthenticated := if accountExists then checkAuth s else false
  (accountExists, isAuthenticated)

/-- The two hex digit characters of a byte below 256: the characters of its
zero-padded two-digit base-16 rendering. -/
def hexChars (b : Nat) : List Char :=
  [Nat.digitChar (b / 16), Nat.digitChar (b % 16)]

/-- The sixteen lowercase hexadecimal digit characters. -/
def hexDigits : List Char :=
  "0123456789abcdef".data

/-- A concrete stand-in digest used to instantiate theorems on concrete
inputs: a single byte recording the input length modulo 256. -/
def demoDigest (x : String) : List Nat :=
  [x.length % 256]

/-- A concrete stand-in digest with the SHA-256 output shape: thirty-two
bytes. -/
def demoDigest32 (x : String) : List Nat :=
  List.replicate 32 (x.length % 256)

set_option maxHeartbeats 1000000 in
set_option maxRecDepth 20000 in
lemma byteToHexStr_eq : ∀ b, b < 256 →
    byteToHexStr b = String.mk (hexChars b) := by
  decide

lemma digitChar_inj : ∀ x, x < 16 → ∀ y, y < 16 →
    Nat.digitChar x = Nat.digitChar y → x = y := by
  decide

lemma digitChar_mem_hexDigits : ∀ x, x < 16 → Nat.digitChar x ∈ hexDigits := by
  decide

lemma join_data : ∀ (l : List String), (String.join l).data = (l.map String.data).flatten := by
  intro l
  have h : ∀ (l : List String) (acc : String),
      (l.foldl (fun r s => r ++ s) acc).data = acc.data ++ (l.map String.data).flatten := by
    intro l
    induction l with
    | nil => intro acc; simp
    | cons a t ih => intro acc; simp [ih, String.data_append]
  simp [h l ""]

lemma hexJoin_data : ∀ (L : List Nat), (∀ b ∈ L, b < 256) →
    (String.join (L.map byteToHexStr)).data = L.flatMap hexChars := by
  intro L
  induction L with
  | nil => intro _; simp [join_data]
  | cons a t ih =>
    intro hL
    have ht := ih (fun b hb => hL b (List.mem_cons_of_mem a hb))
    rw [join_data] at ht ⊢
    simp only [List.map_cons, List.flatten_cons, List.flatMap_cons]
    rw [byteToHexStr_eq a (hL a (List.mem_cons_self a t)), ht]

lemma hexFlat_inj : ∀ (L1 L2 : List Nat), (∀ b ∈ L1, b < 256) → (∀ b ∈ L2, b < 256) →
    L1.flatMap hexChars = L2.flatMap hexChars → L1 = L2 := by
  intro L1
  induction L1 with
  | nil =>
    intro L2 _ _ heq
    cases L2 with
    | nil => rfl
    | cons b t => simp [hexChars] at heq
  | cons a t ih =>
    intro L2 h1 h2 heq
    cases L2 with
    | nil => simp [hexChars] at heq
    | cons b t2 =>
      simp only [hexChars, List.flatMap_cons, List.cons_append, List.nil_append,
        List.cons.injEq] at heq
      obtain ⟨hc1, hc2, hrest⟩ := heq
      have ha : a < 256 := h1 a (List.mem_cons_self a t)
      have hb : b < 256 := h2 b (List.mem_cons_self b t2)
      have hdiv : a / 16 = b / 16 := digitChar_inj _ (by omega) _ (by omega) hc1
      have hmod : a % 16 = b % 16 := digitChar_inj _ (by omega) _ (by omega) hc2
      have hab : a = b := by omega
      have htail : t = t2 :=
        ih t2 (fun x hx => h1 x (List.mem_cons_of_mem a hx))
          (fun x hx => h2 x (List.mem_cons_of_mem b hx)) hrest
      rw [hab, htail]

lemma hexJoin_ne (digest : String → List Nat) (x y : String)
    (hbx : ∀ b ∈ digest x, b < 256) (hby : ∀ b ∈ digest y, b < 256)
    (hne : digest x ≠ digest y) :
    String.join ((digest x).map byteToHexStr) ≠ String.join ((digest y).map byteToHexStr) := by
  intro h
  apply hne
  apply hexFlat_inj _ _ hbx hby
  rw [← hexJoin_data _ hbx, ← hexJoin_data _ hby, h]

lemma flatMap_hexChars_length : ∀ (L : List Nat), (L.flatMap hexChars).length = 2 * L.length := by
  intro L
  induction L with
  | nil => simp
  | cons a t ih =>
    simp only [List.flatMap_cons, List.length_append, List.length_cons, hexChars,
      List.length_nil, ih]
    omega

/-- C1: login returns false when no credential record is stored; when a record
is stored it returns true and sets the session key to the literal string true
exactly when the salted hash of the password equals the stored hash, and on a
non-matching password it returns false leaving the whole store unchanged. -/
theorem login_spec (digest : String → List Nat) (pass : String) (s : Store) :
    (s.user = none → login digest pass s = (false, s)) ∧
    (∀ u, s.user = some u →
      (hashPassword digest pass u.salt = u.hash →
        login digest pass s = (true, ⟨s.user, some "true"⟩)) ∧
      (hashPassword digest pass u.salt ≠ u.hash →
        login digest pass s = (false, s))) := by
  refine ⟨fun h => ?_, fun u h => ⟨fun hm => ?_, fun hm => ?_⟩⟩
  · simp [login, h]
  · simp [login, h, hm]
  · simp [login, h, hm]

/-- Witness for C1: on a store with a record whose hash matches the supplied
password, login returns true and sets the session key. -/
theorem login_spec_witness :
    login demoDigest "pw" ⟨some ⟨"n", "s", hashPassword demoDigest "pw" "s"⟩, none⟩ =
      (true, ⟨some ⟨"n", "s", hashPassword demoDigest "pw" "s"⟩, some "true"⟩) :=
  ((login_spec demoDigest "pw"
      ⟨some ⟨"n", "s", hashPassword demoDigest "pw" "s"⟩, none⟩).2
    ⟨"n", "s", hashPassword demoDigest "pw" "s"⟩ rfl).1 rfl

/-- C2: when no credential record exists, signUp stores the record with the
given name, the fresh salt and the salted hash of the password, sets the
session key to the literal string true, and returns true. -/
theorem signUp_success (digest : String → List Nat) (salt name pass : String)
    (s : Store) (h : s.user = none) :
    signUp digest salt name pass s =
      (true, ⟨some ⟨name, salt, hashPassword digest pass salt⟩, some "true"⟩) := by
  simp [signUp, h]

/-- Witness for C2: signUp on the empty store. -/
theorem signUp_success_witness :
    signUp demoDigest "salt" "Priya" "pw" ⟨none, none⟩ =
      (true, ⟨some ⟨"Priya", "salt", hashPassword demoDigest "pw" "salt"⟩, some "true"⟩) :=
  signUp_success demoDigest "salt" "Priya" "pw" ⟨none, none⟩ rfl

/-- C3: when a credential record already exists, signUp returns false and
leaves the entire store, in particular the stored record, unchanged. -/
theorem signUp_existing_account (digest : String → List Nat) (salt name pass : String)
    (s : Store) (h : s.user.isSome = true) :
    signUp digest salt name pass s = (false, s) := by
  simp [signUp, h]

/-- Witness for C3: a second signUp after a successful one returns false and
changes nothing. -/
theorem signUp_existing_account_witness :
    signUp demoDigest "t" "Bo" "q"
        (signUp demoDigest "salt" "Priya" "pw" ⟨none, none⟩).2 =
      (false, (signUp demoDigest "salt" "Priya" "pw" ⟨none, none⟩).2) :=
  signUp_existing_account demoDigest "t" "Bo" "q"
    (signUp demoDigest "salt" "Priya" "pw" ⟨none, none⟩).2 rfl

/-- C4: starting from the empty store, after signUp with password p succeeds,
login with p returns true and login with p extended by one character returns
false.  The digest is the SHA-256 platform primitive; the hypotheses state
that at the two inputs involved it produces bytes and does not collide, the
standard idealisation of a collision-resistant digest. -/
theorem signUp_then_login (digest : String → List Nat) (salt n p : String)
    (hb1 : ∀ b ∈ digest ((p ++ "x") ++ salt), b < 256)
    (hb2 : ∀ b ∈ digest (p ++ salt), b < 256)
    (hne : digest ((p ++ "x") ++ salt) ≠ digest (p ++ salt)) :
    (signUp digest salt n p ⟨none, none⟩).1 = true ∧
    (login digest p (signUp digest salt n p ⟨none, none⟩).2).1 = true ∧
    (login digest (p ++ "x") (signUp digest salt n p ⟨none, none⟩).2).1 = false := by
  have hstore : (signUp digest salt n p ⟨none, none⟩).2 =
      ⟨some ⟨n, salt, hashPassword digest p salt⟩, some "true"⟩ := by
    simp [signUp]
  have hdiff : hashPassword digest (p ++ "x") salt ≠ hashPassword digest p salt :=
    hexJoin_ne digest ((p ++ "x") ++ salt) (p ++ salt) hb1 hb2 hne
  refine ⟨by simp [signUp], ?_, ?_⟩
  · rw [hstore]
    simp [login]
  · rw [hstore]
    simp [login, hdiff]

/-- Witness for C4 at a concrete digest, name, password and salt. -/
theorem signUp_then_login_witness :
    (∀ b ∈ demoDigest (("p" ++ "x") ++ "s"), b < 256) ∧
    (∀ b ∈ demoDigest ("p" ++ "s"), b < 256) ∧
    demoDigest (("p" ++ "x") ++ "s") ≠ demoDigest ("p" ++ "s") ∧
    ((signUp demoDigest "s" "n" "p" ⟨none, none⟩).1 = true ∧
     (login demoDigest "p" (signUp demoDigest "s" "n" "p" ⟨none, none⟩).2).1 = true ∧
     (login demoDigest ("p" ++ "x") (signUp demoDigest "s" "n" "p" ⟨none, none⟩).2).1 = false) :=
  ⟨by decide, by decide, by decide,
    signUp_then_login demoDigest "s" "n" "p" (by decide) (by decide) (by decide)⟩

/-- C5: logout removes only the session key: afterwards checkAuth is false,
while doesAccountExist and the stored user record are unchanged. -/
theorem logout_frame (s : Store) :
    checkAuth (logout s) = false ∧
    doesAccountExist (logout s) = doesAccountExist s ∧
    (logout s).user = s.user :=
  ⟨rfl, rfl, rfl⟩

/-- C6: checkAuth is true iff the session key holds exactly the literal string
true; it is false when the key is absent or holds any other value. -/
theorem checkAuth_spec (s : Store) :
    (checkAuth s = true ↔ s.session = some "true") ∧
    (s.session = none → checkAuth s = false) ∧
    (∀ v, s.session = some v → v ≠ "true" → checkAuth s = false) := by
  refine ⟨?_, fun h => ?_, fun v hv hne => ?_⟩
  · simp [checkAuth]
  · simp [checkAuth, h]
  · simp [checkAuth, hv, hne]

/-- Witness for C6: a session key holding a value other than the literal true
is not authenticated. -/
theorem checkAuth_spec_witness :
    checkAuth ⟨none, some "TRUE"⟩ = false :=
  (checkAuth_spec ⟨none, some "TRUE"⟩).2.2 "TRUE" rfl (by decide)

/-- C7: the startup check never reports the session as authenticated when no
credential record is stored, even if the session key holds the literal string
true. -/
theorem checkUserStatus_no_account (s : Store) (h : s.user = none) :
    (checkUserStatus s).2 = false := by
  simp [checkUserStatus, doesAccountExist, h]

/-- Witness for C7: a stale session key with no record is overridden. -/
theorem checkUserStatus_no_account_witness :
    (checkUserStatus ⟨none, some "true"⟩).2 = false :=
  checkUserStatus_no_account ⟨none, some "true"⟩ rfl

/-- C8: when the digest produces thirty-two bytes, the stored password hash is
a string of exactly sixty-four characters, each a lowercase hexadecimal
digit. -/
theorem hashPassword_hex64 (digest : String → List Nat) (p salt : String)
    (hlen : (digest (p ++ salt)).length = 32)
    (hb : ∀ b ∈ digest (p ++ salt), b < 256) :
    (hashPassword digest p salt).length = 64 ∧
    ∀ c ∈ (hashPassword digest p salt).data, c ∈ hexDigits := by
  have hdata : (hashPassword digest p salt).data = (digest (p ++ salt)).flatMap hexChars :=
    hexJoin_data _ hb
  constructor
  · have : (hashPassword digest p salt).length = (hashPassword digest p salt).data.length := rfl
    rw [this, hdata, flatMap_hexChars_length, hlen]
  · intro c hc
    rw [hdata] at hc
    rcases List.mem_flatMap.mp hc with ⟨b, hbmem, hcmem⟩
    have hblt : b < 256 := hb b hbmem
    simp only [hexChars, List.mem_cons, List.not_mem_nil, or_false] at hcmem
    rcases hcmem with h | h
    · exact h ▸ digitChar_mem_hexDigits (b / 16) (by omega)
    · exact h ▸ digitChar_mem_hexDigits (b % 16) (by omega)

/-- Witness for C8 at a concrete thirty-two-byte digest. -/
theorem hashPassword_hex64_witness :
    (demoDigest32 ("pw" ++ "salt")).length = 32 ∧
    (∀ b ∈ demoDigest32 ("pw" ++ "salt"), b < 256) ∧
    ((hashPassword demoDigest32 "pw" "salt").length = 64 ∧
     ∀ c ∈ (hashPassword demoDigest32 "pw" "salt").data, c ∈ hexDigits) :=
  ⟨by decide, by decide, hashPassword_hex64 demoDigest32 "pw" "salt" (by decide) (by decide)⟩

/-- C9: two signUp runs on two empty stores with the same password but
distinct fresh salts store different hashes.  The hypotheses state that the
digest produces bytes and does not collide at the two distinct inputs, the
standard idealisation of a collision-resistant digest; they force the salts
apart. -/
theorem signUp_salt_uniqueness (digest : String → List Nat) (n1 n2 p salt1 salt2 : String)
    (hb1 : ∀ b ∈ digest (p ++ salt1), b < 256)
    (hb2 : ∀ b ∈ digest (p ++ salt2), b < 256)
    (hne : digest (p ++ salt1) ≠ digest (p ++ salt2)) :
    ∃ u1 u2,
      (signUp digest salt1 n1 p ⟨none, none⟩).2.user = some u1 ∧
      (signUp digest salt2 n2 p ⟨none, none⟩).2.user = some u2 ∧
      u1.hash ≠ u2.hash := by
  refine ⟨⟨n1, salt1, hashPassword digest p salt1⟩,
    ⟨n2, salt2, hashPassword digest p salt2⟩, by simp [signUp], by simp [signUp], ?_⟩
  exact hexJoin_ne digest (p ++ salt1) (p ++ salt2) hb1 hb2 hne

/-- Witness for C9 at a concrete digest, password and two distinct salts. -/
theorem signUp_salt_uniqueness_witness :
    (∀ b ∈ demoDigest ("p" ++ "a"), b < 256) ∧
    (∀ b ∈ demoDigest ("p" ++ "bb"), b < 256) ∧
    demoDigest ("p" ++ "a") ≠ demoDigest ("p" ++ "bb") ∧
    (∃ u1 u2,
      (signUp demoDigest "a" "n1" "p" ⟨none, none⟩).2.user = some u1 ∧
      (signUp demoDigest "bb" "n2" "p" ⟨none, none⟩).2.user = some u2 ∧
      u1.hash ≠ u2.hash) :=
  ⟨by decide, by decide, by decide,
    signUp_salt_uniqueness demoDigest "n1" "n2" "p" "a" "bb" (by decide) (by decide) (by decide)⟩

/-- C10: getAuthenticatedUser returns null exactly when no credential record
exists (exactly when doesAccountExist is false); otherwise it returns the name
stored at sign-up.  It is a pure reader of the user record alone: stores that
agree on the user record, whatever their session keys, get the same answer,
and no store update is produced. -/
theorem getAuthenticatedUser_spec (digest : String → List Nat) (salt n p : String)
    (s t : Store) :
    (getAuthenticatedUser s = none ↔ doesAccountExist s = false) ∧
    (∀ u, s.user = some u → getAuthenticatedUser s = some ⟨u.name⟩) ∧
    (s.user = t.user → getAuthenticatedUser s = getAuthenticatedUser t) ∧
    getAuthenticatedUser (signUp digest salt n p ⟨none, none⟩).2 = some ⟨n⟩ := by
  refine ⟨?_, fun u h => ?_, fun h => ?_, ?_⟩
  · cases hu : s.user <;> simp [getAuthenticatedUser, doesAccountExist, hu]
  · simp [getAuthenticatedUser, h]
  · unfold getAuthenticatedUser
    rw [h]
  · simp [signUp, getAuthenticatedUser]

/-- Witness for C10: after sign-up the stored display name comes back, and on
stores with differing session keys but equal records the answers agree. -/
theorem getAuthenticatedUser_spec_witness :
    getAuthenticatedUser (signUp demoDigest "s" "Priya" "pw" ⟨none, none⟩).2 =
      some ⟨"Priya"⟩ :=
  (getAuthenticatedUser_spec demoDigest "s" "Priya" "pw" ⟨none, none⟩ ⟨none, none⟩).2.2.2

end FinancelyAI
